import Mathlib

/-!
Verification of `build-tools/python/Tools/peg_generator/jpegen.py`, the CLI
shim that registers a `java` subcommand with the pegen parser-generator tool.

The file under verification contains three functions,
`generate_java_code`, `build_java_parser_and_generator` and
`build_java_generator`, plus the `argparse` registrations of the `java`
subcommand.  All parsing and code-generation logic lives in external
collaborators (`pegen.build`, `JavaParserGenerator`); here those collaborators
are an oracle (`Externals`), polymorphic in the opaque object types
(`Grammar`, `Parser`, `Tokenizer`, token collections, the generator object),
and each oracle call may succeed or raise.

Observable behaviour is captured by
  * a filesystem abstracted to the list of existing paths (`open(p, "w")`
    creates/truncates `p`, `open(p, "r")` raises `FileNotFoundError` when `p`
    does not exist),
  * a trace of events: each external call with the exact arguments passed,
    and every file open/close.

Each embedded function returns its result together with the updated
filesystem and the list of events it emitted, in order.
-/

namespace Jpegen

/-- Python exception values that can cross the boundaries modelled here. -/
inductive JErr where
  | fileNotFound (path : String)
  | nameError (name : String)
  | other (msg : String)
deriving DecidableEq

/-- The mode string of a Python `open` call: `"r"` or `"w"`. -/
inductive Mode where
  | read
  | write
deriving DecidableEq

/-- A Python file object: the path it was opened on and its mode. -/
structure Handle where
  path : String
  mode : Mode
deriving DecidableEq

/-- The external collaborators of jpegen.py, as an oracle.  `G`, `P`, `T` are
the opaque `Grammar`, `Parser`, `Tokenizer` types, `Tok` the opaque type of
token collections, `Gen` the opaque `JavaParserGenerator` object type.  Each
call either returns a value or raises. -/
structure Externals (G P T Tok Gen : Type) where
  buildParser : String → Bool → Bool → Except JErr (G × P × T)
  generate_token_definitions : Handle → Except JErr (Tok × Tok × Tok)
  javaParserGenerator : G → Tok → Tok → Tok → Handle → Bool → Except JErr Gen
  generate : Gen → String → Except JErr Unit

/-- One observable event of a run: an external call with the exact arguments
passed to it, or a file open/close. -/
inductive Event (G Tok Gen : Type) where
  | buildParser (grammarFile : String) (verboseTokenizer verboseParser : Bool)
  | openFile (path : String) (mode : Mode)
  | closeFile (path : String) (mode : Mode)
  | genTokenDefs (tokFile : Handle)
  | mkGenerator (grammar : G) (allTokens exactTok nonExactTok : Tok)
      (file : Handle) (skipActions : Bool)
  | generateCall (gen : Gen) (grammarFile : String)

/-- The parsed argument namespace of the `java` subcommand (the fields that
`argparse` puts on `args`). -/
structure Args where
  grammar_filename : String
  tokens_filename : String
  output : String
  compile_extension : Bool
  optimized : Bool
  skip_actions : Bool
  verbose : Nat
deriving DecidableEq

/-- `build_java_generator(grammar, grammar_file, tokens_file, output_file,
compile_extension=False, verbose_c_extension=False,
keep_asserts_in_extension=True, skip_actions=False)` (jpegen.py lines 80-97).

Body:
```
with open(tokens_file, "r") as tok_file:
    all_tokens, exact_tok, non_exact_tok = build.generate_token_definitions(tok_file)
with open(output_file, "w") as file:
    gen: ParserGenerator = JavaParserGenerator(
        grammar, all_tokens, exact_tok, non_exact_tok, file, skip_actions=skip_actions
    )
    gen.generate(grammar_file)
return gen
```
`open(tokens_file, "r")` raises `FileNotFoundError` when the path does not
exist; `open(output_file, "w")` creates (or truncates) the path.  Each `with`
block closes its handle whether its body returns or raises.
`verbose_c_extension` is declared `bool` but its call site passes the integer
`args.verbose`, hence `Nat` here; it and `compile_extension` and
`keep_asserts_in_extension` are never used in the body.
Returns (result, filesystem after the call, events emitted in order). -/
def build_java_generator {G P T Tok Gen : Type} (ext : Externals G P T Tok Gen)
    (grammar : G) (grammar_file tokens_file output_file : String)
    (compile_extension : Bool) (verbose_c_extension : Nat)
    (keep_asserts_in_extension skip_actions : Bool) (fs : List String) :
    Except JErr Gen × List String × List (Event G Tok Gen) :=
  if fs.contains tokens_file then
    let tok_file : Handle := ⟨tokens_file, Mode.read⟩
    match ext.generate_token_definitions tok_file with
    | .error e =>
        (.error e, fs,
          [.openFile tokens_file Mode.read, .genTokenDefs tok_file,
           .closeFile tokens_file Mode.read])
    | .ok (all_tokens, exact_tok, non_exact_tok) =>
        let fs := output_file :: fs
        let file : Handle := ⟨output_file, Mode.write⟩
        let evs : List (Event G Tok Gen) :=
          [.openFile tokens_file Mode.read, .genTokenDefs tok_file,
           .closeFile tokens_file Mode.read, .openFile output_file Mode.write,
           .mkGenerator grammar all_tokens exact_tok non_exact_tok file skip_actions]
        match ext.javaParserGenerator grammar all_tokens exact_tok non_exact_tok
            file skip_actions with
        | .error e => (.error e, fs, evs ++ [.closeFile output_file Mode.write])
        | .ok gen =>
            match ext.generate gen grammar_file with
            | .error e =>
                (.error e, fs,
                  evs ++ [.generateCall gen grammar_file,
                          .closeFile output_file Mode.write])
            | .ok _ =>
                (.ok gen, fs,
                  evs ++ [.generateCall gen grammar_file,
                          .closeFile output_file Mode.write])
  else
    (.error (JErr.fileNotFound tokens_file), fs, [])

/-- `build_java_parser_and_generator(grammar_file, tokens_file, output_file,
compile_extension=False, verbose_tokenizer=False, verbose_parser=False,
verbose_c_extension=False, keep_asserts_in_extension=True,
skip_actions=False)` (jpegen.py lines 39-77):

```
grammar, parser, tokenizer = build.build_parser(grammar_file, verbose_tokenizer, verbose_parser)
gen = build_java_generator(grammar, grammar_file, tokens_file, output_file,
    compile_extension, verbose_c_extension, keep_asserts_in_extension,
    skip_actions=skip_actions)
return grammar, parser, tokenizer, gen
```
-/
def build_java_parser_and_generator {G P T Tok Gen : Type}
    (ext : Externals G P T Tok Gen)
    (grammar_file tokens_file output_file : String)
    (compile_extension verbose_tokenizer verboseParserFlag : Bool)
    (verbose_c_extension : Nat) (keep_asserts_in_extension skip_actions : Bool)
    (fs : List String) :
    Except JErr (G × P × T × Gen) × List String × List (Event G Tok Gen) :=
  match ext.buildParser grammar_file verbose_tokenizer verboseParserFlag with
  | .error e =>
      (.error e, fs, [.buildParser grammar_file verbose_tokenizer verboseParserFlag])
  | .ok (grammar, parser, tokenizer) =>
      let res := build_java_generator ext grammar grammar_file tokens_file
        output_file compile_extension verbose_c_extension
        keep_asserts_in_extension skip_actions fs
      match res.1 with
      | .error e =>
          (.error e, res.2.1,
            .buildParser grammar_file verbose_tokenizer verboseParserFlag :: res.2.2)
      | .ok gen =>
          (.ok (grammar, parser, tokenizer, gen), res.2.1,
            .buildParser grammar_file verbose_tokenizer verboseParserFlag :: res.2.2)

/-- How a call of the driver function ends: a normal return, a `sys.exit`,
or an uncaught exception propagating to the caller. -/
inductive Outcome (A : Type) where
  | ok (value : A)
  | exited (code : Nat)
  | raised (err : JErr)

/-- Result of a `generate_java_code` call: its outcome, the filesystem after
the call, the events emitted, and the lines written to standard error. -/
structure RunResult (G P T Tok Gen : Type) where
  outcome : Outcome (G × P × T × Gen)
  fs : List String
  trace : List (Event G Tok Gen)
  stderr : List String

/-- `generate_java_code(args)` (jpegen.py lines 12-37):

```
verbose = args.verbose
verbose_tokenizer = verbose >= 3
verbose_parser = verbose == 2 or verbose >= 4
try:
    grammar, parser, tokenizer, gen = build_java_parser_and_generator(
        args.grammar_filename, args.tokens_filename, args.output,
        args.compile_extension, verbose_tokenizer, verbose_parser, args.verbose,
        keep_asserts_in_extension=False if args.optimized else True,
        skip_actions=args.skip_actions)
    return grammar, parser, tokenizer, gen
except Exception as err:
    if args.verbose:
        raise  # Show traceback
    traceback.print_exception(err.__class__, err, None)
    sys.stderr.write("For full traceback, use -v\n")
    sys.exit(1)
```
The module imports only `argparse`, `sys`, `typing`, `pegen` and
`java_generator`: the name `traceback` is never bound, so on the
`args.verbose == 0` branch the lookup `traceback` raises
`NameError("name 'traceback' is not defined")` as the first statement of the
handler, before anything is written to stderr and before `sys.exit(1)` is
reached; that `NameError` propagates out of `generate_java_code`. -/
def generate_java_code {G P T Tok Gen : Type} (ext : Externals G P T Tok Gen)
    (args : Args) (fs : List String) : RunResult G P T Tok Gen :=
  let verbose := args.verbose
  let verbose_tokenizer : Bool := decide (verbose ≥ 3)
  let verboseParserFlag : Bool := (verbose == 2) || decide (verbose ≥ 4)
  let res := build_java_parser_and_generator ext args.grammar_filename
    args.tokens_filename args.output args.compile_extension verbose_tokenizer
    verboseParserFlag args.verbose (if args.optimized then false else true)
    args.skip_actions fs
  match res.1 with
  | .ok x => ⟨.ok x, res.2.1, res.2.2, []⟩
  | .error err =>
      if args.verbose ≠ 0 then
        ⟨.raised err, res.2.1, res.2.2, []⟩
      else
        ⟨.raised (JErr.nameError "traceback"), res.2.1, res.2.2, []⟩

/-- The positional arguments registered on the `java` subcommand, in order:
`grammar_filename` then `tokens_filename` (jpegen.py lines 101-102). -/
inductive PosSlot where
  | grammarSlot
  | tokensSlot
deriving DecidableEq

/-- Store a positional argument into its namespace field. -/
def setPositional (a : Args) : PosSlot → String → Args
  | .grammarSlot, v => { a with grammar_filename := v }
  | .tokensSlot, v => { a with tokens_filename := v }

/-- The defaults of the `java` subcommand's argument namespace before any
command-line token is processed: `argparse` initialises `output` to
`"Parser.java"` (line 105's `default=`), the three `store_true` flags to
`False`, the inherited repeatable `-v` count to `0`; the required positionals
start unset (empty string here; parsing fails if they are not supplied). -/
def javaSubcommandDefaults : Args :=
  { grammar_filename := ""
    tokens_filename := ""
    output := "Parser.java"
    compile_extension := false
    optimized := false
    skip_actions := false
    verbose := 0 }

/-- One pass of `argparse` over the command-line tokens of the `java`
subcommand, with the flags registered in jpegen.py lines 99-119:
`-o`/`--output` consumes a value, `--compile-extension`, `--optimized` and
`--skip-actions` are `store_true`, `-v`/`--verbose` (inherited from the
top-level pegen parser, counted) increments the verbosity, and any other
token fills the next positional slot.  Unknown state (extra positionals,
missing value after `-o`, leftover required positionals) is a parse error. -/
def parseJavaTokens : Args → List PosSlot → List String → Option Args
  | a, ps, [] => if ps.isEmpty then some a else none
  | a, ps, tok :: rest =>
    if tok = "-o" ∨ tok = "--output" then
      match rest with
      | [] => none
      | v :: rest => parseJavaTokens { a with output := v } ps rest
    else if tok = "--compile-extension" then
      parseJavaTokens { a with compile_extension := true } ps rest
    else if tok = "--optimized" then
      parseJavaTokens { a with optimized := true } ps rest
    else if tok = "--skip-actions" then
      parseJavaTokens { a with skip_actions := true } ps rest
    else if tok = "-v" ∨ tok = "--verbose" then
      parseJavaTokens { a with verbose := a.verbose + 1 } ps rest
    else
      match ps with
      | [] => none
      | slot :: ps => parseJavaTokens (setPositional a slot tok) ps rest

/-- Parse the command line of the `java` subcommand (everything after the
literal `java` token) into the argument namespace handed to
`generate_java_code`. -/
def parse_java (argv : List String) : Option Args :=
  parseJavaTokens javaSubcommandDefaults [PosSlot.grammarSlot, PosSlot.tokensSlot] argv

/-! ### Concrete oracles used to evaluate the model at specific inputs -/

/-- An oracle on trivial object types in which every external call succeeds. -/
def allOkExt : Externals Unit Unit Unit Unit Unit :=
  { buildParser := fun _ _ _ => .ok ((), (), ())
    generate_token_definitions := fun _ => .ok ((), (), ())
    javaParserGenerator := fun _ _ _ _ _ _ => .ok ()
    generate := fun _ _ => .ok () }

/-- An oracle in which `build_parser` raises `FileNotFoundError` on its
grammar file (the grammar file is missing) and everything else succeeds. -/
def missingGrammarExt : Externals Unit Unit Unit Unit Unit :=
  { allOkExt with buildParser := fun g _ _ => .error (JErr.fileNotFound g) }

/-- An oracle in which the `generate` method raises and everything else
succeeds. -/
def generateFailsExt : Externals Unit Unit Unit Unit Unit :=
  { allOkExt with generate := fun _ _ => .error (JErr.other "generate failed") }

/-- A baseline argument namespace for concrete evaluations. -/
def argsEx : Args :=
  { grammar_filename := "g.gram"
    tokens_filename := "Tokens"
    output := "out.java"
    compile_extension := false
    optimized := false
    skip_actions := false
    verbose := 0 }

/-! ### Observation helpers on traces -/

/-- The shape of an event, forgetting its payload. -/
inductive EKind where
  | bp
  | openR
  | gtd
  | closeR
  | openW
  | mkGen
  | genCall
  | closeW
deriving DecidableEq

/-- The kind of an event. -/
def Event.kind {G Tok Gen : Type} : Event G Tok Gen → EKind
  | .buildParser _ _ _ => .bp
  | .openFile _ Mode.read => .openR
  | .openFile _ Mode.write => .openW
  | .closeFile _ Mode.read => .closeR
  | .closeFile _ Mode.write => .closeW
  | .genTokenDefs _ => .gtd
  | .mkGenerator _ _ _ _ _ _ => .mkGen
  | .generateCall _ _ => .genCall

/-- The handle opened by an event, if it is a file-open. -/
def Event.openedHandle {G Tok Gen : Type} : Event G Tok Gen → Option Handle
  | .openFile p m => some ⟨p, m⟩
  | _ => none

/-- The handle closed by an event, if it is a file-close. -/
def Event.closedHandle {G Tok Gen : Type} : Event G Tok Gen → Option Handle
  | .closeFile p m => some ⟨p, m⟩
  | _ => none

/-- Whether an event is the generator-constructor call. -/
def Event.isMkGenerator {G Tok Gen : Type} : Event G Tok Gen → Bool
  | .mkGenerator _ _ _ _ _ _ => true
  | _ => false

/-- Whether an event is a call of the generator's `generate` method. -/
def Event.isGenerateCall {G Tok Gen : Type} : Event G Tok Gen → Bool
  | .generateCall _ _ => true
  | _ => false

/-! ### Unfolding lemmas -/

/-- When the tokens file exists and `generate_token_definitions` and the
generator constructor succeed, `build_java_generator` runs to the `generate`
call and its result, filesystem and trace are fully determined (the trace
does not depend on whether `generate` succeeds). -/
theorem build_java_generator_ctor_ok {G P T Tok Gen : Type}
    (ext : Externals G P T Tok Gen) (g : G) (gf tf out : String)
    (ce : Bool) (vce : Nat) (ka sa : Bool) (fs : List String)
    (a e n : Tok) (gen : Gen)
    (hc : fs.contains tf = true)
    (hgtd : ext.generate_token_definitions ⟨tf, Mode.read⟩ = .ok (a, e, n))
    (hctor : ext.javaParserGenerator g a e n ⟨out, Mode.write⟩ sa = .ok gen) :
    build_java_generator ext g gf tf out ce vce ka sa fs =
      ((match ext.generate gen gf with
        | .error err => .error err
        | .ok _ => .ok gen),
       out :: fs,
       [.openFile tf Mode.read, .genTokenDefs ⟨tf, Mode.read⟩,
        .closeFile tf Mode.read, .openFile out Mode.write,
        .mkGenerator g a e n ⟨out, Mode.write⟩ sa,
        .generateCall gen gf, .closeFile out Mode.write]) := by
  unfold build_java_generator
  rw [hc]
  simp only [if_true, hgtd, hctor]
  cases ext.generate gen gf <;> rfl

/-- When the tokens file does not exist, `open(tokens_file, "r")` raises
`FileNotFoundError` immediately: nothing is opened, nothing is called. -/
theorem build_java_generator_no_tokens {G P T Tok Gen : Type}
    (ext : Externals G P T Tok Gen) (g : G) (gf tf out : String)
    (ce : Bool) (vce : Nat) (ka sa : Bool) (fs : List String)
    (hc : fs.contains tf = false) :
    build_java_generator ext g gf tf out ce vce ka sa fs =
      (.error (JErr.fileNotFound tf), fs, []) := by
  unfold build_java_generator
  rw [hc]
  rfl

/-- When `generate_token_definitions` raises, the tokens handle is closed and
the exception propagates before the output file is touched. -/
theorem build_java_generator_gtd_err {G P T Tok Gen : Type}
    (ext : Externals G P T Tok Gen) (g : G) (gf tf out : String)
    (ce : Bool) (vce : Nat) (ka sa : Bool) (fs : List String) (err : JErr)
    (hc : fs.contains tf = true)
    (hgtd : ext.generate_token_definitions ⟨tf, Mode.read⟩ = .error err) :
    build_java_generator ext g gf tf out ce vce ka sa fs =
      (.error err, fs,
       [.openFile tf Mode.read, .genTokenDefs ⟨tf, Mode.read⟩,
        .closeFile tf Mode.read]) := by
  unfold build_java_generator
  rw [hc]
  simp only [if_true, hgtd]

/-- When the generator constructor raises, the output file has already been
opened for writing (created or truncated); the handle is closed and the
exception propagates. -/
theorem build_java_generator_ctor_err {G P T Tok Gen : Type}
    (ext : Externals G P T Tok Gen) (g : G) (gf tf out : String)
    (ce : Bool) (vce : Nat) (ka sa : Bool) (fs : List String)
    (a e n : Tok) (err : JErr)
    (hc : fs.contains tf = true)
    (hgtd : ext.generate_token_definitions ⟨tf, Mode.read⟩ = .ok (a, e, n))
    (hctor : ext.javaParserGenerator g a e n ⟨out, Mode.write⟩ sa = .error err) :
    build_java_generator ext g gf tf out ce vce ka sa fs =
      (.error err, out :: fs,
       [.openFile tf Mode.read, .genTokenDefs ⟨tf, Mode.read⟩,
        .closeFile tf Mode.read, .openFile out Mode.write,
        .mkGenerator g a e n ⟨out, Mode.write⟩ sa,
        .closeFile out Mode.write]) := by
  unfold build_java_generator
  rw [hc]
  simp only [if_true, hgtd, hctor]
  rfl

/-- When `build_parser` raises, `build_java_parser_and_generator` propagates
the exception after the single `buildParser` call. -/
theorem build_java_parser_and_generator_bp_err {G P T Tok Gen : Type}
    (ext : Externals G P T Tok Gen) (gf tf out : String)
    (ce vt vp : Bool) (vce : Nat) (ka sa : Bool) (fs : List String) (err : JErr)
    (hbp : ext.buildParser gf vt vp = .error err) :
    build_java_parser_and_generator ext gf tf out ce vt vp vce ka sa fs =
      (.error err, fs, [.buildParser gf vt vp]) := by
  unfold build_java_parser_and_generator
  rw [hbp]

/-- When `build_parser` succeeds and `build_java_generator` raises, the
exception propagates with the `buildParser` event prepended to the trace. -/
theorem build_java_parser_and_generator_gen_err {G P T Tok Gen : Type}
    (ext : Externals G P T Tok Gen) (gf tf out : String)
    (ce vt vp : Bool) (vce : Nat) (ka sa : Bool) (fs fs2 : List String)
    (g : G) (p : P) (t : T) (err : JErr) (evs : List (Event G Tok Gen))
    (hbp : ext.buildParser gf vt vp = .ok (g, p, t))
    (hgen : build_java_generator ext g gf tf out ce vce ka sa fs =
      (.error err, fs2, evs)) :
    build_java_parser_and_generator ext gf tf out ce vt vp vce ka sa fs =
      (.error err, fs2, .buildParser gf vt vp :: evs) := by
  unfold build_java_parser_and_generator
  rw [hbp]
  simp only [hgen]

/-- When `build_parser` succeeds and `build_java_generator` returns a
generator, `build_java_parser_and_generator` returns `build_parser`'s three
outputs and the generator, unchanged. -/
theorem build_java_parser_and_generator_ok {G P T Tok Gen : Type}
    (ext : Externals G P T Tok Gen) (gf tf out : String)
    (ce vt vp : Bool) (vce : Nat) (ka sa : Bool) (fs fs2 : List String)
    (g : G) (p : P) (t : T) (gen : Gen) (evs : List (Event G Tok Gen))
    (hbp : ext.buildParser gf vt vp = .ok (g, p, t))
    (hgen : build_java_generator ext g gf tf out ce vce ka sa fs =
      (.ok gen, fs2, evs)) :
    build_java_parser_and_generator ext gf tf out ce vt vp vce ka sa fs =
      (.ok (g, p, t, gen), fs2, .buildParser gf vt vp :: evs) := by
  unfold build_java_parser_and_generator
  rw [hbp]
  simp only [hgen]

/-- The arguments `generate_java_code` passes to
`build_java_parser_and_generator`, assembled from the namespace. -/
def driverCall {G P T Tok Gen : Type} (ext : Externals G P T Tok Gen)
    (args : Args) (fs : List String) :
    Except JErr (G × P × T × Gen) × List String × List (Event G Tok Gen) :=
  build_java_parser_and_generator ext args.grammar_filename
    args.tokens_filename args.output args.compile_extension
    (decide (args.verbose ≥ 3))
    ((args.verbose == 2) || decide (args.verbose ≥ 4)) args.verbose
    (if args.optimized then false else true) args.skip_actions fs

/-- On a successful build, the driver returns the tuple unchanged. -/
theorem generate_java_code_ok {G P T Tok Gen : Type}
    (ext : Externals G P T Tok Gen) (args : Args) (fs fs2 : List String)
    (x : G × P × T × Gen) (evs : List (Event G Tok Gen))
    (hres : driverCall ext args fs = (.ok x, fs2, evs)) :
    generate_java_code ext args fs = ⟨.ok x, fs2, evs, []⟩ := by
  unfold generate_java_code
  unfold driverCall at hres
  simp only [hres]

/-- On a failed build with nonzero verbosity, the driver re-raises the same
exception unchanged. -/
theorem generate_java_code_err_verbose {G P T Tok Gen : Type}
    (ext : Externals G P T Tok Gen) (args : Args) (fs fs2 : List String)
    (err : JErr) (evs : List (Event G Tok Gen))
    (hres : driverCall ext args fs = (.error err, fs2, evs))
    (hv : args.verbose ≠ 0) :
    generate_java_code ext args fs = ⟨.raised err, fs2, evs, []⟩ := by
  unfold generate_java_code
  unfold driverCall at hres
  simp only [hres]
  rw [if_pos hv]

/-- On a failed build with verbosity 0, the handler's first statement looks
up the unbound name `traceback` and the resulting `NameError` propagates:
nothing reaches stderr and `sys.exit(1)` is never executed. -/
theorem generate_java_code_err_quiet {G P T Tok Gen : Type}
    (ext : Externals G P T Tok Gen) (args : Args) (fs fs2 : List String)
    (err : JErr) (evs : List (Event G Tok Gen))
    (hres : driverCall ext args fs = (.error err, fs2, evs))
    (hv : args.verbose = 0) :
    generate_java_code ext args fs =
      ⟨.raised (JErr.nameError "traceback"), fs2, evs, []⟩ := by
  unfold generate_java_code
  unfold driverCall at hres
  simp only [hres]
  simp [hv]

/-- The driver's trace is the trace of the build it delegates to, in every
outcome: the handler emits no events. -/
theorem generate_java_code_trace_eq {G P T Tok Gen : Type}
    (ext : Externals G P T Tok Gen) (args : Args) (fs : List String) :
    (generate_java_code ext args fs).trace = (driverCall ext args fs).2.2 := by
  rcases h : driverCall ext args fs with ⟨r, fs2, evs⟩
  cases r with
  | ok x => rw [generate_java_code_ok ext args fs fs2 x evs h]
  | error err =>
      by_cases hv : args.verbose = 0
      · rw [generate_java_code_err_quiet ext args fs fs2 err evs h hv]
      · rw [generate_java_code_err_verbose ext args fs fs2 err evs h hv]

/-- Every run of `build_java_parser_and_generator` begins with the
`build_parser` call. -/
theorem build_java_parser_and_generator_trace_head {G P T Tok Gen : Type}
    (ext : Externals G P T Tok Gen) (gf tf out : String)
    (ce vt vp : Bool) (vce : Nat) (ka sa : Bool) (fs : List String) :
    (build_java_parser_and_generator ext gf tf out ce vt vp vce ka sa fs).2.2.head? =
      some (.buildParser gf vt vp) := by
  cases hbp : ext.buildParser gf vt vp with
  | error err =>
      rw [build_java_parser_and_generator_bp_err ext gf tf out ce vt vp vce ka sa fs err hbp]
      rfl
  | ok gpt =>
      obtain ⟨g, p, t⟩ := gpt
      rcases h2 : build_java_generator ext g gf tf out ce vce ka sa fs with ⟨r2, fs3, evs2⟩
      cases r2 with
      | error err =>
          rw [build_java_parser_and_generator_gen_err ext gf tf out ce vt vp vce ka sa
            fs fs3 g p t err evs2 hbp h2]
          rfl
      | ok gen =>
          rw [build_java_parser_and_generator_ok ext gf tf out ce vt vp vce ka sa
            fs fs3 g p t gen evs2 hbp h2]
          rfl

/-- The full run equation of `generate_java_code` when every external call
succeeds: the driver returns `build_parser`'s three objects and the generator
unchanged, the output file has been created, the trace is the fixed call
sequence, stderr is untouched. -/
theorem driver_success_run {G P T Tok Gen : Type}
    (ext : Externals G P T Tok Gen) (args : Args) (fs : List String)
    (g : G) (p : P) (t : T) (a e n : Tok) (gen : Gen)
    (hc : fs.contains args.tokens_filename = true)
    (hbp : ext.buildParser args.grammar_filename (decide (args.verbose ≥ 3))
      ((args.verbose == 2) || decide (args.verbose ≥ 4)) = .ok (g, p, t))
    (hgtd : ext.generate_token_definitions ⟨args.tokens_filename, Mode.read⟩ =
      .ok (a, e, n))
    (hctor : ext.javaParserGenerator g a e n ⟨args.output, Mode.write⟩
      args.skip_actions = .ok gen)
    (hgen : ext.generate gen args.grammar_filename = .ok ()) :
    generate_java_code ext args fs =
      ⟨.ok (g, p, t, gen), args.output :: fs,
       [.buildParser args.grammar_filename (decide (args.verbose ≥ 3))
          ((args.verbose == 2) || decide (args.verbose ≥ 4)),
        .openFile args.tokens_filename Mode.read,
        .genTokenDefs ⟨args.tokens_filename, Mode.read⟩,
        .closeFile args.tokens_filename Mode.read,
        .openFile args.output Mode.write,
        .mkGenerator g a e n ⟨args.output, Mode.write⟩ args.skip_actions,
        .generateCall gen args.grammar_filename,
        .closeFile args.output Mode.write], []⟩ := by
  have h1 := build_java_generator_ctor_ok ext g args.grammar_filename
    args.tokens_filename args.output args.compile_extension args.verbose
    (if args.optimized then false else true) args.skip_actions fs a e n gen
    hc hgtd hctor
  rw [hgen] at h1
  have h2 := build_java_parser_and_generator_ok ext args.grammar_filename
    args.tokens_filename args.output args.compile_extension
    (decide (args.verbose ≥ 3)) ((args.verbose == 2) || decide (args.verbose ≥ 4))
    args.verbose (if args.optimized then false else true) args.skip_actions
    fs (args.output :: fs) g p t gen _ hbp h1
  exact generate_java_code_ok ext args fs _ _ _ h2

/-- The order of event kinds any complete run can exhibit: `build_parser`,
open/read tokens, `generate_token_definitions`, close tokens, open/write
output, generator construction, the single `generate` call, close output. -/
def observableKindOrder : List EKind :=
  [.bp, .openR, .gtd, .closeR, .openW, .mkGen, .genCall, .closeW]

/-- Whatever the oracles do, `build_java_generator`'s events follow the fixed
order, each at most once. -/
theorem build_java_generator_kind_sublist {G P T Tok Gen : Type}
    (ext : Externals G P T Tok Gen) (g : G) (gf tf out : String)
    (ce : Bool) (vce : Nat) (ka sa : Bool) (fs : List String) :
    List.Sublist
      ((build_java_generator ext g gf tf out ce vce ka sa fs).2.2.map Event.kind)
      [EKind.openR, .gtd, .closeR, .openW, .mkGen, .genCall, .closeW] := by
  cases hc : fs.contains tf with
  | false =>
      rw [build_java_generator_no_tokens ext g gf tf out ce vce ka sa fs hc]
      exact List.nil_sublist _
  | true =>
      cases hgtd : ext.generate_token_definitions ⟨tf, Mode.read⟩ with
      | error err =>
          rw [build_java_generator_gtd_err ext g gf tf out ce vce ka sa fs err hc hgtd]
          simp only [List.map, Event.kind]
          decide
      | ok toks =>
          obtain ⟨a, e, n⟩ := toks
          cases hctor : ext.javaParserGenerator g a e n ⟨out, Mode.write⟩ sa with
          | error err =>
              rw [build_java_generator_ctor_err ext g gf tf out ce vce ka sa fs
                a e n err hc hgtd hctor]
              simp only [List.map, Event.kind]
              decide
          | ok gen =>
              have h1 := build_java_generator_ctor_ok ext g gf tf out ce vce ka
                sa fs a e n gen hc hgtd hctor
              cases hgen : ext.generate gen gf with
              | error err =>
                  rw [hgen] at h1
                  rw [h1]
                  simp only [List.map, Event.kind]
                  decide
              | ok u =>
                  rw [hgen] at h1
                  rw [h1]
                  simp only [List.map, Event.kind]
                  decide

/-- Whatever the oracles do, the events of a full build follow the fixed
order, each at most once. -/
theorem build_java_parser_and_generator_kind_sublist {G P T Tok Gen : Type}
    (ext : Externals G P T Tok Gen) (gf tf out : String)
    (ce vt vp : Bool) (vce : Nat) (ka sa : Bool) (fs : List String) :
    List.Sublist
      ((build_java_parser_and_generator ext gf tf out ce vt vp vce ka sa fs).2.2.map
        Event.kind)
      observableKindOrder := by
  cases hbp : ext.buildParser gf vt vp with
  | error err =>
      rw [build_java_parser_and_generator_bp_err ext gf tf out ce vt vp vce ka sa fs err hbp]
      simp only [List.map, Event.kind]
      decide
  | ok gpt =>
      obtain ⟨g, p, t⟩ := gpt
      rcases h2 : build_java_generator ext g gf tf out ce vce ka sa fs with ⟨r2, fs3, evs2⟩
      have hk := build_java_generator_kind_sublist ext g gf tf out ce vce ka sa fs
      rw [h2] at hk
      cases r2 with
      | error err =>
          rw [build_java_parser_and_generator_gen_err ext gf tf out ce vt vp vce ka sa
            fs fs3 g p t err evs2 hbp h2]
          simp only [List.map, Event.kind]
          exact List.Sublist.cons₂ _ hk
      | ok gen =>
          rw [build_java_parser_and_generator_ok ext gf tf out ce vt vp vce ka sa
            fs fs3 g p t gen evs2 hbp h2]
          simp only [List.map, Event.kind]
          exact List.Sublist.cons₂ _ hk

/-- C7: whatever the collaborators do — including an exception from
`generate_token_definitions`, the generator constructor, or `generate` — the
handles `build_java_generator` opens are exactly the handles it closes, in
the same order, and both lie in the trace the call has completed by the time
it returns: no handle opened by this file outlives the call that opened
it. -/
theorem file_handles_closed_per_call {G P T Tok Gen : Type}
    (ext : Externals G P T Tok Gen) (g : G) (gf tf out : String)
    (ce : Bool) (vce : Nat) (ka sa : Bool) (fs : List String) :
    (build_java_generator ext g gf tf out ce vce ka sa fs).2.2.filterMap
        Event.openedHandle =
      (build_java_generator ext g gf tf out ce vce ka sa fs).2.2.filterMap
        Event.closedHandle := by
  cases hc : fs.contains tf with
  | false =>
      rw [build_java_generator_no_tokens ext g gf tf out ce vce ka sa fs hc]
      rfl
  | true =>
      cases hgtd : ext.generate_token_definitions ⟨tf, Mode.read⟩ with
      | error err =>
          rw [build_java_generator_gtd_err ext g gf tf out ce vce ka sa fs err hc hgtd]
          simp [Event.openedHandle, Event.closedHandle]
      | ok toks =>
          obtain ⟨a, e, n⟩ := toks
          cases hctor : ext.javaParserGenerator g a e n ⟨out, Mode.write⟩ sa with
          | error err =>
              rw [build_java_generator_ctor_err ext g gf tf out ce vce ka sa fs
                a e n err hc hgtd hctor]
              simp [Event.openedHandle, Event.closedHandle]
          | ok gen =>
              have h1 := build_java_generator_ctor_ok ext g gf tf out ce vce ka
                sa fs a e n gen hc hgtd hctor
              cases hgen : ext.generate gen gf with
              | error err =>
                  rw [hgen] at h1
                  rw [h1]
                  simp [Event.openedHandle, Event.closedHandle]
              | ok u =>
                  rw [hgen] at h1
                  rw [h1]
                  simp [Event.openedHandle, Event.closedHandle]

/-- Storing a positional argument never touches the `output` field. -/
theorem setPositional_output (a : Args) (slot : PosSlot) (v : String) :
    (setPositional a slot v).output = a.output := by
  cases slot <;> rfl

/-- The `output` field of a successful parse is whatever it was in the
incoming namespace unless an `-o`/`--output` token is processed. -/
theorem parseJavaTokens_output_invariant :
    ∀ (argv : List String) (a : Args) (ps : List PosSlot) (r : Args),
      "-o" ∉ argv → "--output" ∉ argv →
      parseJavaTokens a ps argv = some r → r.output = a.output := by
  intro argv
  induction argv with
  | nil =>
      intro a ps r _ _ h
      cases ps with
      | nil =>
          simp only [parseJavaTokens, List.isEmpty_nil, if_true, Option.some.injEq] at h
          rw [← h]
      | cons s ps => simp [parseJavaTokens] at h
  | cons tok rest ih =>
      intro a ps r hno hnoo h
      have hno' : "-o" ∉ rest := fun hm => hno (List.mem_cons_of_mem _ hm)
      have hnoo' : "--output" ∉ rest := fun hm => hnoo (List.mem_cons_of_mem _ hm)
      have h1 : ¬(tok = "-o" ∨ tok = "--output") := by
        rintro (rfl | rfl)
        · exact hno (List.mem_cons_self _ _)
        · exact hnoo (List.mem_cons_self _ _)
      unfold parseJavaTokens at h
      rw [if_neg h1] at h
      by_cases h2 : tok = "--compile-extension"
      · rw [if_pos h2] at h
        exact ih { a with compile_extension := true } ps r hno' hnoo' h
      rw [if_neg h2] at h
      by_cases h3 : tok = "--optimized"
      · rw [if_pos h3] at h
        exact ih { a with optimized := true } ps r hno' hnoo' h
      rw [if_neg h3] at h
      by_cases h4 : tok = "--skip-actions"
      · rw [if_pos h4] at h
        exact ih { a with skip_actions := true } ps r hno' hnoo' h
      rw [if_neg h4] at h
      by_cases h5 : tok = "-v" ∨ tok = "--verbose"
      · rw [if_pos h5] at h
        exact ih { a with verbose := a.verbose + 1 } ps r hno' hnoo' h
      rw [if_neg h5] at h
      cases ps with
      | nil => simp at h
      | cons slot ps =>
          have := ih _ _ _ hno' hnoo' h
          rw [this, setPositional_output]

/-! ### The claims -/

/-- C1 (code evidence for the claim's failure): the claim says that with
verbosity 0 an exception during build/generation is reported as type and
message plus the hint `For full traceback, use -v` on stderr followed by
`sys.exit(1)`.  In the code the handler's first statement references the
never-imported name `traceback`, so on a missing grammar file with verbosity
0 the call raises `NameError` (name `traceback`), writes nothing to stderr
and never reaches `sys.exit(1)`; with verbosity 1 the original
file-not-found exception is re-raised unchanged (that half of the claim does
hold). -/
theorem quiet_failure_raises_unbound_traceback_name :
    (generate_java_code missingGrammarExt
        { argsEx with grammar_filename := "missing.gram" } ["Tokens"]).outcome =
      Outcome.raised (JErr.nameError "traceback")
  ∧ (generate_java_code missingGrammarExt
        { argsEx with grammar_filename := "missing.gram" } ["Tokens"]).stderr = []
  ∧ (generate_java_code missingGrammarExt
        { argsEx with grammar_filename := "missing.gram", verbose := 1 }
        ["Tokens"]).outcome =
      Outcome.raised (JErr.fileNotFound "missing.gram") :=
  ⟨rfl, rfl, rfl⟩

/-- C2: whenever the external collaborators all succeed (valid grammar and
tokens files), the driver completes without raising and the output path
exists in the filesystem afterwards. -/
theorem valid_inputs_produce_output_file {G P T Tok Gen : Type}
    (ext : Externals G P T Tok Gen) (args : Args) (fs : List String)
    (g : G) (p : P) (t : T) (a e n : Tok) (gen : Gen)
    (hc : fs.contains args.tokens_filename = true)
    (hbp : ext.buildParser args.grammar_filename (decide (args.verbose ≥ 3))
      ((args.verbose == 2) || decide (args.verbose ≥ 4)) = .ok (g, p, t))
    (hgtd : ext.generate_token_definitions ⟨args.tokens_filename, Mode.read⟩ =
      .ok (a, e, n))
    (hctor : ext.javaParserGenerator g a e n ⟨args.output, Mode.write⟩
      args.skip_actions = .ok gen)
    (hgen : ext.generate gen args.grammar_filename = .ok ()) :
    (∃ v, (generate_java_code ext args fs).outcome = Outcome.ok v)
  ∧ (generate_java_code ext args fs).fs.contains args.output = true := by
  rw [driver_success_run ext args fs g p t a e n gen hc hbp hgtd hctor hgen]
  exact ⟨⟨(g, p, t, gen), rfl⟩, by simp [List.contains_cons]⟩

/-- C2 witness: a concrete run with all-succeeding collaborators on existing
files. -/
theorem valid_inputs_produce_output_file_witness :
    (∃ v, (generate_java_code allOkExt argsEx ["g.gram", "Tokens"]).outcome =
      Outcome.ok v)
  ∧ (generate_java_code allOkExt argsEx
      ["g.gram", "Tokens"]).fs.contains argsEx.output = true :=
  valid_inputs_produce_output_file allOkExt argsEx ["g.gram", "Tokens"]
    () () () () () () () (by decide) rfl rfl rfl rfl

/-- C3: two invocations identical except for `--compile-extension` and
`--optimized` produce identical runs: same returned values, same filesystem
effects, same trace of external calls (hence the same generated output), same
stderr.  Both flags are dead in the Java backend. -/
theorem compile_extension_optimized_unobservable {G P T Tok Gen : Type}
    (ext : Externals G P T Tok Gen) (args : Args) (ce opt : Bool)
    (fs : List String) :
    generate_java_code ext
        { args with compile_extension := ce, optimized := opt } fs =
      generate_java_code ext args fs := rfl

/-- C4: any invocation that reaches generation constructs the generator
exactly once, with positional arguments (grammar, all_tokens, exact_tokens,
non_exact_tokens, output file handle) in that order and
`skip_actions := args.skip_actions`, and calls `generate` exactly once with
the grammar file path as its only argument. -/
theorem generator_constructed_and_generate_called_once {G P T Tok Gen : Type}
    (ext : Externals G P T Tok Gen) (args : Args) (fs : List String)
    (g : G) (p : P) (t : T) (a e n : Tok) (gen : Gen)
    (hc : fs.contains args.tokens_filename = true)
    (hbp : ext.buildParser args.grammar_filename (decide (args.verbose ≥ 3))
      ((args.verbose == 2) || decide (args.verbose ≥ 4)) = .ok (g, p, t))
    (hgtd : ext.generate_token_definitions ⟨args.tokens_filename, Mode.read⟩ =
      .ok (a, e, n))
    (hctor : ext.javaParserGenerator g a e n ⟨args.output, Mode.write⟩
      args.skip_actions = .ok gen) :
    (generate_java_code ext args fs).trace.filter Event.isMkGenerator =
      [.mkGenerator g a e n ⟨args.output, Mode.write⟩ args.skip_actions]
  ∧ (generate_java_code ext args fs).trace.filter Event.isGenerateCall =
      [.generateCall gen args.grammar_filename] := by
  rw [generate_java_code_trace_eq]
  have h1 := build_java_generator_ctor_ok ext g args.grammar_filename
    args.tokens_filename args.output args.compile_extension args.verbose
    (if args.optimized then false else true) args.skip_actions fs a e n gen
    hc hgtd hctor
  show (driverCall ext args fs).2.2.filter Event.isMkGenerator = _
    ∧ (driverCall ext args fs).2.2.filter Event.isGenerateCall = _
  unfold driverCall
  cases hgen : ext.generate gen args.grammar_filename with
  | error err =>
      rw [hgen] at h1
      rw [build_java_parser_and_generator_gen_err ext args.grammar_filename
        args.tokens_filename args.output args.compile_extension
        (decide (args.verbose ≥ 3))
        ((args.verbose == 2) || decide (args.verbose ≥ 4)) args.verbose
        (if args.optimized then false else true) args.skip_actions fs
        (args.output :: fs) g p t err _ hbp h1]
      exact ⟨rfl, rfl⟩
  | ok u =>
      rw [hgen] at h1
      rw [build_java_parser_and_generator_ok ext args.grammar_filename
        args.tokens_filename args.output args.compile_extension
        (decide (args.verbose ≥ 3))
        ((args.verbose == 2) || decide (args.verbose ≥ 4)) args.verbose
        (if args.optimized then false else true) args.skip_actions fs
        (args.output :: fs) g p t gen _ hbp h1]
      exact ⟨rfl, rfl⟩

/-- C4 witness: the concrete all-succeeding run constructs one generator and
issues one `generate` call. -/
theorem generator_constructed_and_generate_called_once_witness :
    (generate_java_code allOkExt argsEx ["g.gram", "Tokens"]).trace.filter
        Event.isMkGenerator =
      [.mkGenerator () () () () ⟨"out.java", Mode.write⟩ false]
  ∧ (generate_java_code allOkExt argsEx ["g.gram", "Tokens"]).trace.filter
        Event.isGenerateCall =
      [.generateCall () "g.gram"] :=
  generator_constructed_and_generate_called_once allOkExt argsEx
    ["g.gram", "Tokens"] () () () () () () () (by decide) rfl rfl rfl

/-- C5: whatever the collaborators do, the external calls of a run occur in
the fixed order build_parser, open tokens file, generate_token_definitions,
close tokens file, open output file, generator construction, generate, close
output file — each at most once (the event kinds form a sublist of the fixed
order); in particular `generate` never precedes `build_parser` or
`generate_token_definitions`. -/
theorem external_calls_fixed_order {G P T Tok Gen : Type}
    (ext : Externals G P T Tok Gen) (args : Args) (fs : List String) :
    List.Sublist ((generate_java_code ext args fs).trace.map Event.kind)
      observableKindOrder := by
  rw [generate_java_code_trace_eq]
  exact build_java_parser_and_generator_kind_sublist ext args.grammar_filename
    args.tokens_filename args.output args.compile_extension
    (decide (args.verbose ≥ 3))
    ((args.verbose == 2) || decide (args.verbose ≥ 4)) args.verbose
    (if args.optimized then false else true) args.skip_actions fs

/-- C6: when token loading and generator construction succeed but `generate`
raises, the exception propagates out of `build_java_generator`, yet the
output path exists afterwards — it was opened in write mode (created, or
truncated if it existed) before `generate` ran, as the trace order shows:
the failure is not atomic with respect to the output file. -/
theorem output_truncated_before_generate {G P T Tok Gen : Type}
    (ext : Externals G P T Tok Gen) (g : G) (gf tf out : String)
    (ce : Bool) (vce : Nat) (ka sa : Bool) (fs : List String)
    (a e n : Tok) (gen : Gen) (err : JErr)
    (hc : fs.contains tf = true)
    (hgtd : ext.generate_token_definitions ⟨tf, Mode.read⟩ = .ok (a, e, n))
    (hctor : ext.javaParserGenerator g a e n ⟨out, Mode.write⟩ sa = .ok gen)
    (hgen : ext.generate gen gf = .error err) :
    (build_java_generator ext g gf tf out ce vce ka sa fs).1 = .error err
  ∧ (build_java_generator ext g gf tf out ce vce ka sa fs).2.1.contains out = true
  ∧ (build_java_generator ext g gf tf out ce vce ka sa fs).2.2 =
      [.openFile tf Mode.read, .genTokenDefs ⟨tf, Mode.read⟩,
       .closeFile tf Mode.read, .openFile out Mode.write,
       .mkGenerator g a e n ⟨out, Mode.write⟩ sa,
       .generateCall gen gf, .closeFile out Mode.write] := by
  have h1 := build_java_generator_ctor_ok ext g gf tf out ce vce ka sa fs
    a e n gen hc hgtd hctor
  rw [hgen] at h1
  rw [h1]
  exact ⟨rfl, by simp [List.contains_cons], rfl⟩

/-- C6 witness: a concrete run whose `generate` call fails after the output
file was created. -/
theorem output_truncated_before_generate_witness :
    (build_java_generator generateFailsExt () "g.gram" "Tokens" "out.java"
        false 0 true false ["Tokens"]).1 = .error (JErr.other "generate failed")
  ∧ (build_java_generator generateFailsExt () "g.gram" "Tokens" "out.java"
        false 0 true false ["Tokens"]).2.1.contains "out.java" = true
  ∧ (build_java_generator generateFailsExt () "g.gram" "Tokens" "out.java"
        false 0 true false ["Tokens"]).2.2 =
      [.openFile "Tokens" Mode.read, .genTokenDefs ⟨"Tokens", Mode.read⟩,
       .closeFile "Tokens" Mode.read, .openFile "out.java" Mode.write,
       .mkGenerator () () () () ⟨"out.java", Mode.write⟩ false,
       .generateCall () "g.gram", .closeFile "out.java" Mode.write] :=
  output_truncated_before_generate generateFailsExt () "g.gram" "Tokens"
    "out.java" false 0 true false ["Tokens"] () () () ()
    (JErr.other "generate failed") (by decide) rfl rfl rfl

/-- C8: if neither `-o` nor `--output` appears on the `java` subcommand's
command line, a successful parse yields `output = "Parser.java"`, the
registered default. -/
theorem output_defaults_to_parser_java (argv : List String) (a : Args)
    (h1 : "-o" ∉ argv) (h2 : "--output" ∉ argv)
    (h : parse_java argv = some a) : a.output = "Parser.java" :=
  parseJavaTokens_output_invariant argv javaSubcommandDefaults
    [PosSlot.grammarSlot, PosSlot.tokensSlot] a h1 h2 h

/-- C8 witness: parsing just the two positionals leaves the default. -/
theorem output_defaults_to_parser_java_witness :
    ("-o" ∉ (["g.gram", "Tokens"] : List String))
  ∧ Args.output
      { grammar_filename := "g.gram"
        tokens_filename := "Tokens"
        output := "Parser.java"
        compile_extension := false
        optimized := false
        skip_actions := false
        verbose := 0 } = "Parser.java" :=
  ⟨by decide,
   output_defaults_to_parser_java ["g.gram", "Tokens"] _ (by decide) (by decide) rfl⟩

/-- C9: the first external call of any run is `build_parser`, and the
verbosity flags forwarded to it satisfy: the verbose-tokenizer flag is true
exactly when the `-v` count is at least 3, the verbose-parser flag exactly
when the count is 2 or at least 4 (so 1 enables neither and 3 enables only
the tokenizer flag). -/
theorem verbosity_flag_thresholds {G P T Tok Gen : Type}
    (ext : Externals G P T Tok Gen) (args : Args) (fs : List String) :
    (generate_java_code ext args fs).trace.head? =
      some (.buildParser args.grammar_filename (decide (args.verbose ≥ 3))
        ((args.verbose == 2) || decide (args.verbose ≥ 4)))
  ∧ ((decide (args.verbose ≥ 3)) = true ↔ 3 ≤ args.verbose)
  ∧ (((args.verbose == 2) || decide (args.verbose ≥ 4)) = true ↔
      (args.verbose = 2 ∨ 4 ≤ args.verbose)) := by
  refine ⟨?_, by simp, ?_⟩
  · rw [generate_java_code_trace_eq]
    exact build_java_parser_and_generator_trace_head ext args.grammar_filename
      args.tokens_filename args.output args.compile_extension
      (decide (args.verbose ≥ 3))
      ((args.verbose == 2) || decide (args.verbose ≥ 4)) args.verbose
      (if args.optimized then false else true) args.skip_actions fs
  · simp [Bool.or_eq_true, decide_eq_true_iff]

/-- C10: on a successful invocation the driver's returned `Grammar`, `Parser`
and `Tokenizer` are exactly the three objects `build_parser` returned,
passed through unchanged (the embedding is polymorphic in their types, so
the driver cannot inspect or mutate them). -/
theorem build_parser_objects_passed_through {G P T Tok Gen : Type}
    (ext : Externals G P T Tok Gen) (args : Args) (fs : List String)
    (g : G) (p : P) (t : T) (a e n : Tok) (gen : Gen)
    (hc : fs.contains args.tokens_filename = true)
    (hbp : ext.buildParser args.grammar_filename (decide (args.verbose ≥ 3))
      ((args.verbose == 2) || decide (args.verbose ≥ 4)) = .ok (g, p, t))
    (hgtd : ext.generate_token_definitions ⟨args.tokens_filename, Mode.read⟩ =
      .ok (a, e, n))
    (hctor : ext.javaParserGenerator g a e n ⟨args.output, Mode.write⟩
      args.skip_actions = .ok gen)
    (hgen : ext.generate gen args.grammar_filename = .ok ()) :
    (generate_java_code ext args fs).outcome = Outcome.ok (g, p, t, gen) := by
  rw [driver_success_run ext args fs g p t a e n gen hc hbp hgtd hctor hgen]

/-- C10 witness: the concrete all-succeeding run returns the oracle's
objects. -/
theorem build_parser_objects_passed_through_witness :
    (generate_java_code allOkExt argsEx ["g.gram", "Tokens"]).outcome =
      Outcome.ok ((), (), (), ()) :=
  build_parser_objects_passed_through allOkExt argsEx ["g.gram", "Tokens"]
    () () () () () () () (by decide) rfl rfl rfl rfl

end Jpegen
